import Mathlib

/-!
# Verification of the Agentic-Product-Research pipeline

A shallow embedding of the control core of the repository: the
orchestrator decision function and the quality validator of
`agents/agents.py`, the `run_research` loop of `main.py`, the web search
wrapper of `tools/web_search_tool.py`, and the routing functions of
`agents/generic_agents.py`.  External LLM and HTTP calls are modelled as
behaviour parameters: each call site receives either the call's result or
the raised exception's text, so theorems quantified over a `Behavior`
hold for every possible oracle and retrieval provider.
-/

/-! ## String helpers mirroring the Python operations used by the source.
All are written over `List Char` so that concrete instances reduce in the
kernel. -/

/-- `pre` is a prefix of `l`. -/
def isPrefixList (pre l : List Char) : Bool :=
  match pre, l with
  | [], _ => true
  | _ :: _, [] => false
  | a :: as, b :: bs => a = b && isPrefixList as bs

/-- `pat` occurs as a contiguous sublist of `l`. -/
def occursList (pat : List Char) : List Char → Bool
  | [] => isPrefixList pat []
  | c :: rest => isPrefixList pat (c :: rest) || occursList pat rest

/-- Python `pat in s` (substring test). -/
def containsSubstr (s pat : String) : Bool :=
  occursList pat.data s.data

/-- Python `s.lower()` (ASCII case folding, which is all the source
compares). -/
def pyLower (s : String) : String :=
  ⟨s.data.map Char.toLower⟩

/-- Python `s.strip()`. -/
def pyStrip (s : String) : String :=
  ⟨((s.data.dropWhile Char.isWhitespace).reverse.dropWhile
      Char.isWhitespace).reverse⟩

/-- Python `decision.split('\n')[0].split()[0] if decision else decision`:
first whitespace-delimited token of the first line, `""` for the empty
string (the source only applies it to stripped text, where `split()` is
non-empty whenever the text is). -/
def firstToken (s : String) : String :=
  if s = "" then s
  else
    let line := s.data.takeWhile (fun c => c ≠ '\n')
    ⟨(line.dropWhile Char.isWhitespace).takeWhile
      (fun c => ¬ Char.isWhitespace c)⟩

/-! ## Association lists with Python `dict` insertion-order semantics -/

/-- `d.get(k)`: first binding of `k`. -/
def alistGet? {α : Type} (l : List (String × α)) (k : String) : Option α :=
  (l.find? (fun p => p.1 = k)).map (fun p => p.2)

/-- `k in d`. -/
def alistMem {α : Type} (l : List (String × α)) (k : String) : Bool :=
  l.any (fun p => p.1 = k)

/-- `d[k] = v`: overwrite in place when the key exists, otherwise append,
exactly the insertion-order behaviour of a Python `dict`. -/
def alistSet {α : Type} (l : List (String × α)) (k : String) (v : α) :
    List (String × α) :=
  if alistMem l k then
    l.map (fun p => if p.1 = k then (k, v) else p)
  else l ++ [(k, v)]

/-! ## Data model shared by `main.py` and `agents/agents.py` -/

/-- `state["agent_call_counts"]` of `main.py` (initialised with the five
stage counters at zero). -/
structure AgentCallCounts where
  research_planner : Nat
  data_collector : Nat
  data_analyzer : Nat
  quality_validator : Nat
  report_synthesizer : Nat
deriving DecidableEq, Repr

/-- The JSON object produced by the validator LLM (`overall_score`,
`validation_status`, `research_gaps`, `recommendations`); scores may be
fractional (the prompt's example uses `7.5`), hence `ℚ`. -/
structure ValidationData where
  overall_score : ℚ
  validation_status : String
  research_gaps : List String
  recommendations : List String
deriving DecidableEq, Repr

/-- One entry of a research plan's `search_queries` list. -/
structure SearchQuery where
  entity : String
  focus : String
  query : String
deriving DecidableEq, Repr

/-! ## `agents/agents.py`: the decision engine and the validator -/

/-- The fields of the pipeline state read by the decision logic of
`agents/agents.py::orchestrator_decision` (`iteration_count` and
`agent_call_counts`; the remaining context fields only feed the prompt
text). -/
structure AgentsDecisionState where
  iteration_count : Nat
  agent_call_counts : AgentCallCounts
deriving DecidableEq, Repr

/-- `agents/agents.py::orchestrator_decision`.  `oracle` is the LLM call's
outcome: `Except.ok content` for a response, `Except.error e` when the
call raises.  The success branch extracts the lowercased first token,
then applies the quality-validation rules, then the safety rules, and
otherwise returns the token; the exception branch applies the quality
rules and then the iteration buckets. -/
def orchestrator_decision (st : AgentsDecisionState) (last_agent_result : String)
    (oracle : Except String String) : String :=
  let agent_counts := st.agent_call_counts
  let iteration_count := st.iteration_count
  match oracle with
  | Except.ok content =>
      let decision := pyLower (pyStrip content)
      let decision_clean := firstToken decision
      if containsSubstr last_agent_result "quality_validated_good" then
        "report_synthesis"
      else if containsSubstr last_agent_result "quality_validated_needs_improvement" then
        if agent_counts.quality_validator < 2 then "data_collection"
        else "report_synthesis"
      else if containsSubstr last_agent_result "quality_validated_poor" then
        if agent_counts.quality_validator < 2 then "data_collection"
        else "report_synthesis"
      else if iteration_count ≥ 12 then "report_synthesis"
      else if iteration_count > 15 then "end"
      else decision_clean
  | Except.error _ =>
      if containsSubstr last_agent_result "quality_validated_good" then
        "report_synthesis"
      else if containsSubstr last_agent_result "quality_validated_needs_improvement" then
        if agent_counts.quality_validator < 2 then "data_collection"
        else "report_synthesis"
      else if containsSubstr last_agent_result "quality_validated_poor" then
        if agent_counts.quality_validator < 2 then "data_collection"
        else "report_synthesis"
      else if iteration_count < 5 then "data_collection"
      else if iteration_count < 8 then "data_analysis"
      else "report_synthesis"

/-- Outcome classification of `agents/agents.py::QualityValidatorAgent.execute`
(success path): `overall_score >= 8 or validation_status == 'pass'` is
good, otherwise `overall_score >= 6` needs improvement, otherwise poor. -/
def validatorLabel (vd : ValidationData) : String :=
  if 8 ≤ vd.overall_score ∨ vd.validation_status = "pass" then
    "quality_validated_good"
  else if 6 ≤ vd.overall_score then
    "quality_validated_needs_improvement"
  else
    "quality_validated_poor"

/-- The fallback validation result stored by
`QualityValidatorAgent.execute` when the validator's own LLM call
raises. -/
def fallbackValidationData : ValidationData :=
  { overall_score := 7
    validation_status := "pass"
    research_gaps := []
    recommendations := ["Continue with current approach"] }

/-- The validator's stored result and outcome marker as a function of its
LLM call: a parsed response is stored and classified by `validatorLabel`;
an exception stores `fallbackValidationData` with marker
`"quality_validated_fallback"`. -/
def agentsValidatorRun (ob : Except String ValidationData) :
    ValidationData × String :=
  match ob with
  | Except.ok vd => (vd, validatorLabel vd)
  | Except.error _ => (fallbackValidationData, "quality_validated_fallback")

/-! ## `main.py::run_research`: the pipeline state and run loop -/

/-- One analysis entry of `state["analysis_results"]` in `main.py`
(`analysis`, `focus_areas_covered`, `data_quality`). -/
structure AnalysisEntry where
  analysis : String
  focus_areas_covered : List String
  data_quality : String
deriving DecidableEq, Repr

/-- The six values the loop variable `current_step` of
`main.py::run_research` takes (initial value `"query_parsing"`). -/
inductive Step where
  | queryParsing
  | researchPlanning
  | dataCollection
  | dataAnalysis
  | qualityValidation
  | reportSynthesis
deriving DecidableEq, Repr

/-- The structured result of a successful query-parsing LLM call
(`entities`, `focus_areas`, `research_type`, `output_format`). -/
structure ParsedData where
  entities : List String
  focus_areas : List String
  research_type : String
  output_format : String
deriving DecidableEq, Repr

/-- The `state` dict of `main.py::run_research`, together with the two
function locals `target_entities` and `focus_areas` that Python keeps
across loop iterations and the collector reads back via
`'target_entities' in locals()`.  `research_plan` is
`research_context["research_plan"]["search_queries"]` (`none` while the
key is absent), `research_type` is `research_context["research_type"]`. -/
structure RState where
  original_query : String
  parsed_entities : List String
  research_focus_areas : List String
  research_data : List (String × List (String × String))
  analysis_results : List (String × AnalysisEntry)
  validation_results : Option ValidationData
  final_report : String
  current_agent : String
  agent_messages : List String
  iteration_count : Nat
  max_iterations : Nat
  research_plan : Option (List SearchQuery)
  research_type : Option String
  agent_call_counts : AgentCallCounts
  loc_target : Option (List String)
  loc_focus : Option (List String)
deriving DecidableEq, Repr

/-- `state` as initialised at the top of `run_research` (empty
collections, `iteration_count = 0`, `max_iterations = 15`). -/
def initState (q : String) : RState :=
  { original_query := q
    parsed_entities := []
    research_focus_areas := []
    research_data := []
    analysis_results := []
    validation_results := none
    final_report := ""
    current_agent := ""
    agent_messages := []
    iteration_count := 0
    max_iterations := 15
    research_plan := none
    research_type := none
    agent_call_counts := ⟨0, 0, 0, 0, 0⟩
    loc_target := none
    loc_focus := none }

/-- The behaviour of every external call the loop makes, indexed by the
cycle number (`iteration_count` at call time): `Except.ok` is the call's
return value, `Except.error e` a raised exception with text `e`
(JSON-parse failures of LLM output land in the same `except` branches and
are covered by `Except.error`).  `search` is additionally indexed by the
query's position within the cycle.  Quantifying over `Behavior` quantifies
over every oracle and retrieval provider. -/
structure Behavior where
  decideLLM : Nat → Except String String
  parseLLM : Nat → Except String ParsedData
  planLLM : Nat → Except String (List SearchQuery)
  analyzeLLM : Nat → String → Except String String
  validateLLM : Nat → Except String ValidationData
  synthLLM : Nat → Except String String
  search : Nat → Nat → Except String String

/-- `main.py::orchestrator_decision`: the success branch returns the
lowercased first token of the response; the exception branch is the
deterministic iteration-bucket fallback. -/
def main_orchestrator_decision (st : RState) (oracle : Except String String) : String :=
  match oracle with
  | Except.ok content => firstToken (pyLower (pyStrip content))
  | Except.error _ =>
      if st.iteration_count < 3 then "data_collection"
      else if st.analysis_results.length = 0 then "data_analysis"
      else if st.iteration_count < 5 then "data_collection"
      else if st.iteration_count < 7 then "data_analysis"
      else if st.iteration_count < 9 then "report_synthesis"
      else "end"

/-- The `generic_terms` list filtered out of `parsed_entities` when
building `target_entities` (collector and synthesizer branches). -/
def genericTerms : List String :=
  ["tools", "businesses", "small to mid-size B2B businesses",
   "small to mid-size businesses", "B2B businesses", "CRM tools",
   "accounting tools", "software", "platforms", "solutions", "systems",
   "applications", "products", "services", "companies", "organizations"]

/-- `[entity for entity in parsed_entities if entity.lower() not in
[term.lower() for term in generic_terms]]`. -/
def filterGeneric (entities : List String) : List String :=
  entities.filter
    (fun e => ¬ (genericTerms.map pyLower).contains (pyLower e))

/-- The `query_parsing` branch of the loop body: a parsed response sets
`parsed_entities`, `research_focus_areas` and the research context; an
exception falls back to entity `"Unknown"` and focus area `"general"`.
Both branches append exactly one message.  Returns the new state and
`last_result`. -/
def parseStage (b : Behavior) (st : RState) : RState × String :=
  match b.parseLLM st.iteration_count with
  | Except.ok pd =>
      ({ st with
          parsed_entities := pd.entities
          research_focus_areas := pd.focus_areas
          research_type := some pd.research_type
          current_agent := "query_parser"
          agent_messages := st.agent_messages ++
            ["Query Parser: Parsed query and identified " ++
              toString pd.entities.length ++ " entities and " ++
              toString pd.focus_areas.length ++ " focus areas"] },
        "Query parsed successfully - " ++ toString pd.entities.length ++
          " entities, " ++ toString pd.focus_areas.length ++ " focus areas")
  | Except.error e =>
      ({ st with
          parsed_entities := ["Unknown"]
          research_focus_areas := ["general"]
          research_type := some "analysis"
          current_agent := "query_parser"
          agent_messages := st.agent_messages ++
            ["Query Parser: Fallback parsing due to error: " ++ e] },
        "Query parsing failed, using fallback")

/-- The `research_planning` branch: stores a plan from the LLM, or on
exception the cross product `{entity} {area}` fallback plan; both
branches bump `research_planner` and append one message.  The branch
assigns the function local `focus_areas` from the state first. -/
def planStage (b : Behavior) (st : RState) : RState × String :=
  let st := { st with loc_focus := some st.research_focus_areas }
  match b.planLLM st.iteration_count with
  | Except.ok qs =>
      ({ st with
          research_plan := some qs
          current_agent := "research_planner"
          agent_call_counts := { st.agent_call_counts with
            research_planner := st.agent_call_counts.research_planner + 1 }
          agent_messages := st.agent_messages ++
            ["Research Planner: Created research plan with " ++
              toString qs.length ++ " search queries"] },
        "Research plan created with " ++ toString qs.length ++
          " search queries")
  | Except.error e =>
      let fallback := st.parsed_entities.flatMap (fun entity =>
        st.research_focus_areas.map (fun area =>
          SearchQuery.mk entity area (entity ++ " " ++ area)))
      ({ st with
          research_plan := some fallback
          current_agent := "research_planner"
          agent_call_counts := { st.agent_call_counts with
            research_planner := st.agent_call_counts.research_planner + 1 }
          agent_messages := st.agent_messages ++
            ["Research Planner: Fallback planning due to error: " ++ e] },
        "Research planning failed, using fallback")

/-- `research_data[entity][focus] = v` (creating the entity's inner dict
when absent, as `if entity not in research_data: research_data[entity] = {}`
does). -/
def rdSet (rd : List (String × List (String × String)))
    (entity focus v : String) : List (String × List (String × String)) :=
  alistSet rd entity (alistSet ((alistGet? rd entity).getD []) focus v)

/-- The value stored in the cell for one search: the result on success,
`"Search failed for {query}: {e}"` when the call raises. -/
def cellOf (r : Except String String) (query : String) : String :=
  match r with
  | Except.ok s => s
  | Except.error e => "Search failed for " ++ query ++ ": " ++ e

/-- The collector's `for i, query_info in enumerate(queries_to_process)`
loop: each search's outcome is written into
`research_data[entity][focus]` via `cellOf`; a failure never aborts the
fold. -/
def processQueries (search : Nat → Except String String) :
    List SearchQuery → Nat → List (String × List (String × String)) →
    List (String × List (String × String))
  | [], _, rd => rd
  | q :: qs, i, rd =>
      processQueries search qs (i + 1)
        (rdSet rd q.entity q.focus (cellOf (search i) q.query))

/-- The `data_collection` branch of the loop body, including the
fallback plan construction, the `locals()`-based
`target_entities_count`/`focus_areas_count` defaults (3 and 4), and the
per-entity slice `search_queries[start:start+focus_areas_count]`. -/
def collectStage (b : Behavior) (st : RState) : RState × String :=
  let search_queries0 := st.research_plan.getD []
  let isFallback : Bool :=
    match search_queries0 with
    | [] => true
    | [q] => q.entity = "Unknown"
    | _ => false
  let fb :
      List SearchQuery × Option (List String) × Option (List String) ×
        Option (List SearchQuery) :=
    if isFallback then
      let te0 := filterGeneric st.parsed_entities
      let te := if te0.isEmpty then ["Entity1", "Entity2", "Entity3"] else te0
      let fas :=
        if st.research_focus_areas ≠ [] ∧
            st.research_focus_areas ≠ ["general"] then
          st.research_focus_areas
        else ["pricing", "features", "integrations", "limitations"]
      let qs := te.flatMap (fun entity => fas.map (fun focus =>
        SearchQuery.mk entity focus (entity ++ " " ++ focus ++ " small business")))
      (qs, some te, some fas, some qs)
    else (search_queries0, st.loc_target, st.loc_focus, st.research_plan)
  let search_queries := fb.1
  let loc_t := fb.2.1
  let loc_f := fb.2.2.1
  let plan' := fb.2.2.2
  let total_queries_processed := (st.research_data.map (fun p => p.2.length)).sum
  let tec := match loc_t with | some l => l.length | none => 3
  let fac := match loc_f with | some l => l.length | none => 4
  let expected := tec * fac
  let queries_to_process :=
    if total_queries_processed < expected then
      let start := total_queries_processed / fac * fac
      (search_queries.drop start).take fac
    else []
  let rd' := processQueries (b.search st.iteration_count)
    queries_to_process 0 st.research_data
  ({ st with
      research_data := rd'
      current_agent := "data_collector"
      agent_call_counts := { st.agent_call_counts with
        data_collector := st.agent_call_counts.data_collector + 1 }
      agent_messages := st.agent_messages ++
        ["Data Collector: Collected data for " ++ toString rd'.length ++
          " entities"]
      research_plan := plan'
      loc_target := loc_t
      loc_focus := loc_f },
    "Data collection completed for " ++ toString rd'.length ++ " entities")

/-- The inner `for entity in research_data` loop of the `data_analysis`
branch: entities without an analysis entry get one from the LLM, or the
`"Analysis failed: {e}"` fallback with `data_quality = "low"`. -/
def analyzeEntities (b : Behavior) (it : Nat)
    (rd : List (String × List (String × String))) :
    List (String × AnalysisEntry) → List (String × AnalysisEntry)
  | ar =>
    rd.foldl (fun ar p =>
      if alistMem ar p.1 then ar
      else
        let combined := String.intercalate " " (p.2.map (fun c => c.2))
        match b.analyzeLLM it p.1 with
        | Except.ok content =>
            alistSet ar p.1
              ⟨content, p.2.map (fun c => c.1),
                if combined.length > 1000 then "high" else "medium"⟩
        | Except.error e =>
            alistSet ar p.1
              ⟨"Analysis failed: " ++ e, p.2.map (fun c => c.1), "low"⟩) ar

/-- The `data_analysis` branch of the loop body (also assigns the
function local `focus_areas` from the state). -/
def analyzeStage (b : Behavior) (st : RState) : RState × String :=
  let ar := analyzeEntities b st.iteration_count st.research_data
    st.analysis_results
  ({ st with
      analysis_results := ar
      current_agent := "data_analyzer"
      agent_call_counts := { st.agent_call_counts with
        data_analyzer := st.agent_call_counts.data_analyzer + 1 }
      agent_messages := st.agent_messages ++
        ["Data Analyzer: Analyzed data for " ++ toString ar.length ++
          " entities"]
      loc_focus := some st.research_focus_areas },
    "Data analysis completed for " ++ toString ar.length ++ " entities")

/-- The `quality_validation` branch of the loop body in `main.py`: a
parsed response is stored with `last_result = "quality_validated"`; an
exception stores the score-7 `"pass"` fallback with
`last_result = "quality_validated_fallback"`.  (This branch does not set
`current_agent`.) -/
def validateStage (b : Behavior) (st : RState) : RState × String :=
  match b.validateLLM st.iteration_count with
  | Except.ok vd =>
      ({ st with
          validation_results := some vd
          agent_call_counts := { st.agent_call_counts with
            quality_validator := st.agent_call_counts.quality_validator + 1 }
          agent_messages := st.agent_messages ++
            ["Quality Validator: Validated research with score " ++
              toString vd.overall_score ++ "/10"] },
        "quality_validated")
  | Except.error _ =>
      ({ st with
          validation_results := some fallbackValidationData
          agent_call_counts := { st.agent_call_counts with
            quality_validator := st.agent_call_counts.quality_validator + 1 }
          agent_messages := st.agent_messages ++
            ["Quality Validator: Using fallback validation due to validation error"] },
        "quality_validated_fallback")

/-- The `report_synthesis` branch of the loop body: sets the function
locals `target_entities` and `focus_areas` (the latter from the absent
`parsed_focus_areas` key, hence always the four defaults), then stores
the report or the `"Report generation failed: {e}"` fallback. -/
def synthStage (b : Behavior) (st : RState) : RState × String :=
  let te0 := filterGeneric st.parsed_entities
  let te := if te0.isEmpty then ["Entity1", "Entity2", "Entity3"] else te0
  let st := { st with
    loc_target := some te
    loc_focus := some ["pricing", "features", "integrations", "limitations"] }
  match b.synthLLM st.iteration_count with
  | Except.ok content =>
      ({ st with
          final_report := content
          current_agent := "report_synthesizer"
          agent_call_counts := { st.agent_call_counts with
            report_synthesizer := st.agent_call_counts.report_synthesizer + 1 }
          agent_messages := st.agent_messages ++
            ["Report Synthesizer: Generated comprehensive report"] },
        "Report synthesis completed - " ++ toString content.length ++
          " characters")
  | Except.error e =>
      ({ st with
          final_report := "Report generation failed: " ++ e
          current_agent := "report_synthesizer"
          agent_call_counts := { st.agent_call_counts with
            report_synthesizer := st.agent_call_counts.report_synthesizer + 1 }
          agent_messages := st.agent_messages ++
            ["Report Synthesizer: Failed to generate report: " ++ e] },
        "Report synthesis failed: " ++ e)

/-- Dispatch of the loop body on `current_step`. -/
def stageExec (b : Behavior) (s : Step) (st : RState) : RState × String :=
  match s with
  | .queryParsing => parseStage b st
  | .researchPlanning => planStage b st
  | .dataCollection => collectStage b st
  | .dataAnalysis => analyzeStage b st
  | .qualityValidation => validateStage b st
  | .reportSynthesis => synthStage b st

/-- The per-stage `if decision == ... / elif ... / else` transfer chains
of `run_research`: the next `current_step`, or `none` for `break`
(decision `"end"`). -/
def route : Step → String → Option Step
  | .queryParsing, d =>
      if d = "research_planning" then some .researchPlanning
      else if d = "data_collection" then some .dataCollection
      else if d = "data_analysis" then some .dataAnalysis
      else if d = "report_synthesis" then some .reportSynthesis
      else if d = "end" then none
      else some .researchPlanning
  | .researchPlanning, d =>
      if d = "data_collection" then some .dataCollection
      else if d = "data_analysis" then some .dataAnalysis
      else if d = "report_synthesis" then some .reportSynthesis
      else if d = "end" then none
      else some .dataCollection
  | .dataCollection, d =>
      if d = "data_collection" then some .dataCollection
      else if d = "data_analysis" then some .dataAnalysis
      else if d = "additional_research" then some .dataCollection
      else if d = "report_synthesis" then some .reportSynthesis
      else if d = "end" then none
      else some .dataAnalysis
  | .dataAnalysis, d =>
      if d = "quality_validation" then some .qualityValidation
      else if d = "enhance_analysis" then some .dataAnalysis
      else if d = "additional_research" then some .dataCollection
      else if d = "report_synthesis" then some .reportSynthesis
      else if d = "end" then none
      else some .qualityValidation
  | .qualityValidation, d =>
      if d = "report_synthesis" then some .reportSynthesis
      else if d = "data_collection" then some .dataCollection
      else if d = "end" then none
      else some .reportSynthesis
  | .reportSynthesis, d =>
      if d = "enhance_analysis" then some .dataAnalysis
      else if d = "additional_research" then some .dataCollection
      else if d = "end" then none
      else some .dataCollection

/-- One cycle of the `while` loop: `iteration_count += 1` at the top,
then the stage branch for `current_step`, then the orchestrator decision
and the transfer chain. -/
def cycle (b : Behavior) (st : RState) (s : Step) : RState × Option Step :=
  let st1 := { st with iteration_count := st.iteration_count + 1 }
  let res := stageExec b s st1
  let d := main_orchestrator_decision res.1 (b.decideLLM st1.iteration_count)
  (res.1, route s d)

/-- One observation of the loop: the triple carries the state, the
current step and whether the loop has stopped (condition false or
`break`).  The `while` condition is checked before each cycle. -/
def runStep (b : Behavior) :
    RState × Step × Bool → RState × Step × Bool
  | (st, s, stop) =>
    if stop then (st, s, true)
    else if st.iteration_count < st.max_iterations then
      match cycle b st s with
      | (st', none) => (st', s, true)
      | (st', some s') => (st', s', false)
    else (st, s, true)

/-- The run after `n` loop-condition checks, starting from the initial
state at step `query_parsing`. -/
def runState (b : Behavior) (q : String) : Nat → RState × Step × Bool
  | 0 => (initState q, .queryParsing, false)
  | n + 1 => runStep b (runState b q n)

/-- A behaviour in which every LLM call and every retrieval call raises
(`"boom"`): the always-failing oracle and provider of the spec's
degraded-mode scenarios. -/
def allFail : Behavior :=
  { decideLLM := fun _ => Except.error "boom"
    parseLLM := fun _ => Except.error "boom"
    planLLM := fun _ => Except.error "boom"
    analyzeLLM := fun _ _ => Except.error "boom"
    validateLLM := fun _ => Except.error "boom"
    synthLLM := fun _ => Except.error "boom"
    search := fun _ _ => Except.error "boom" }

/-! ## `tools/web_search_tool.py::WebSearchTool._run` -/

/-- One entry of the `organic` list of a Serper response. -/
structure OrganicItem where
  title : Option String
  snippet : Option String
  link : Option String
deriving DecidableEq, Repr

/-- The parsed JSON of a 200 response: `organic` when the key is
present, `answerBox` when present and truthy. -/
structure SerperData where
  organic : Option (List OrganicItem)
  answerBox : Option (Option String)
deriving DecidableEq, Repr

/-- What the HTTP call inside `_run` does: a 200 response with parsed
data, a non-200 status code, or a raised exception (network error,
timeout, JSON decode error, ...). -/
inductive HttpOutcome where
  | success (data : SerperData)
  | badStatus (code : Nat)
  | raised (e : String)
deriving DecidableEq, Repr

/-- `WebSearchTool._format_search_results`. -/
def formatSearchResults (d : SerperData) : String :=
  let results : List String :=
    match d.organic with
    | some items =>
        (items.take 5).map (fun item =>
          "\n**" ++ item.title.getD "No title" ++ "**\n" ++
            item.snippet.getD "No description" ++ "\nSource: " ++
            item.link.getD "No link" ++ "\n---")
    | none => []
  let results : List String :=
    match d.answerBox with
    | some answer =>
        ("\n**Quick Answer:**\n" ++ answer.getD "No answer available" ++
          "\n---") :: results
    | none => results
  if results.isEmpty then "No search results found"
  else String.intercalate "\n" results

/-- `WebSearchTool._run` as a total function of the HTTP outcome: the
whole body sits inside `try`, so a 200 response is formatted, a non-200
status returns the status-code string, and any exception is caught and
returned as the `"Error during web search: ..."` string.  No outcome
raises. -/
def webSearchRun : HttpOutcome → String
  | .success d => formatSearchResults d
  | .badStatus code => "Search failed with status code: " ++ toString code
  | .raised e => "Error during web search: " ++ e

/-- The collector's query loop with the per-search `except` branch
deleted: every cell is the search call's return value directly.  A
refinement target: when the search call is the total `webSearchRun`, the
real loop `processQueries` behaves exactly like this one, i.e. its
exception branch is unreachable. -/
def processQueriesNoExcept (result : Nat → String) :
    List SearchQuery → Nat → List (String × List (String × String)) →
    List (String × List (String × String))
  | [], _, rd => rd
  | q :: qs, i, rd =>
      processQueriesNoExcept result qs (i + 1)
        (rdSet rd q.entity q.focus (result i))

/-! ## `agents/generic_agents.py`: collector node and routing functions -/

/-- `research_results[entity]` in the generic collector:
`{"queries": ..., "results": ..., "timestamp": ...}`. -/
structure GEntityData where
  queries : List String
  results : List (String × String)
  timestamp : String
deriving DecidableEq, Repr

/-- The fields of `GenericAgentState` the collector node and the two
routing functions read and write.  `research_data_results` is
`state["research_data"].get("results", {})` ([] while absent);
`validation_recommendations` is the `recommendations` list of
`validation_results` (`none` while the key is absent). -/
structure GState where
  original_query : String
  parsed_entities : List String
  research_focus_areas : List String
  research_data_results : List (String × GEntityData)
  validation_recommendations : Option (List String)
  final_report : String
  current_agent : String
  agent_messages : List String
  iteration_count : Nat
  max_iterations : Nat
deriving DecidableEq, Repr

/-- `GenericResearchOrchestrator.data_collector_agent`: for each parsed
entity, one search per focus area (result or `"Search failed: {e}"`),
stored under keys `search_1`, `search_2`, ...; appends exactly one
message.  `ts` stands for `datetime.now().isoformat()`; `search` is
indexed by entity position and query position. -/
def genericDataCollector (ts : String)
    (search : Nat → Nat → Except String String) (st : GState) : GState :=
  let research_results := st.parsed_entities.enum.foldl (fun acc p =>
    let queries := st.research_focus_areas.map
      (fun area => p.2 ++ " " ++ area ++ " 2024")
    let entity_results := queries.enum.map (fun qi =>
      ("search_" ++ toString (qi.1 + 1),
        match search p.1 qi.1 with
        | Except.ok r => r
        | Except.error e => "Search failed: " ++ e))
    alistSet acc p.2 ⟨queries, entity_results, ts⟩) []
  { st with
      research_data_results := research_results
      current_agent := "data_collector"
      agent_messages := st.agent_messages ++
        ["Data Collector: Collected data for " ++
          toString research_results.length ++ " entities"] }

/-- `GenericResearchOrchestrator._route_after_data_collection`: an entity
missing from the results, or holding fewer than 2 search results, is
incomplete; below the iteration cap this bumps `iteration_count`,
appends a message and loops back to `data_collection`; otherwise one of
the two `data_analysis` branches runs, each also appending a message.
Returns the mutated state and the route. -/
def routeAfterDataCollection (st : GState) : GState × String :=
  let research_data := st.research_data_results
  let incomplete := st.parsed_entities.filter (fun e =>
    match alistGet? research_data e with
    | none => true
    | some ed => ed.results.length < 2)
  if incomplete ≠ [] ∧ st.iteration_count < st.max_iterations then
    ({ st with
        iteration_count := st.iteration_count + 1
        agent_messages := st.agent_messages ++
          ["Data Collector: Detected incomplete data for " ++
            toString incomplete ++ ", requesting additional research"] },
      "data_collection")
  else if research_data.length ≥ st.parsed_entities.length then
    ({ st with agent_messages := st.agent_messages ++
        ["Data Collector: Sufficient data gathered, proceeding to analysis"] },
      "data_analysis")
  else
    ({ st with agent_messages := st.agent_messages ++
        ["Data Collector: Max iterations reached, proceeding with available data"] },
      "data_analysis")

/-- `GenericResearchOrchestrator._route_after_validation`: every branch
appends exactly one message; recommendations containing
`"incomplete"`/`"insufficient"` send the flow back to `data_collection`
below the iteration cap. -/
def routeAfterValidation (st : GState) : GState × String :=
  match st.validation_recommendations with
  | some recommendations =>
      let needs_more_research := recommendations.any (fun rec =>
        containsSubstr (pyLower rec) "incomplete" ||
          containsSubstr (pyLower rec) "insufficient")
      if needs_more_research ∧ st.iteration_count < st.max_iterations then
        ({ st with
            iteration_count := st.iteration_count + 1
            agent_messages := st.agent_messages ++
              ["Quality Validator: Detected data quality issues, requesting additional research"] },
          "data_collection")
      else
        ({ st with agent_messages := st.agent_messages ++
            ["Quality Validator: Validation complete, proceeding to report synthesis"] },
          "report_synthesis")
  | none =>
      ({ st with agent_messages := st.agent_messages ++
          ["Quality Validator: Validation incomplete, requesting additional research"] },
        "data_collection")

/-- The closed set of action names enumerated as "Available Actions" in
the orchestrator prompt of `main.py` (a superset of the seven listed in
`agents/agents.py`). -/
def closedActionLabels : List String :=
  ["query_parsing", "research_planning", "data_collection", "data_analysis",
   "quality_validation", "report_synthesis", "enhance_analysis",
   "additional_research", "cross_validation", "end"]

/-! ## Theorems about the decision engine (`agents/agents.py`) -/

/-- C4.  A passing validator outcome (`overall_score >= 8` or
`validation_status == "pass"`, which covers score 9 with status pass on
the first call) yields the marker `quality_validated_good`, and on that
marker `orchestrator_decision` returns `report_synthesis` for every
pipeline state and every oracle outcome, including a raised oracle
call. -/
theorem validator_pass_forces_synthesis (vd : ValidationData)
    (st : AgentsDecisionState) (ob : Except String String)
    (h : 8 ≤ vd.overall_score ∨ vd.validation_status = "pass") :
    orchestrator_decision st (agentsValidatorRun (Except.ok vd)).2 ob =
      "report_synthesis" := by
  have hl : (agentsValidatorRun (Except.ok vd)).2 = "quality_validated_good" := by
    simp [agentsValidatorRun, validatorLabel, h]
  rw [hl]
  have hg : containsSubstr "quality_validated_good" "quality_validated_good" = true := by
    decide
  cases ob <;> simp [orchestrator_decision, hg]

/-- Witness for C4: score 9 with status `pass`, a failing oracle. -/
theorem validator_pass_forces_synthesis_witness :
    (8 ≤ (⟨9, "pass", [], []⟩ : ValidationData).overall_score ∨
      (⟨9, "pass", [], []⟩ : ValidationData).validation_status = "pass") ∧
    orchestrator_decision ⟨3, ⟨1, 1, 1, 1, 0⟩⟩
      (agentsValidatorRun (Except.ok ⟨9, "pass", [], []⟩)).2
      (Except.error "oracle down") = "report_synthesis" :=
  ⟨Or.inr rfl,
    validator_pass_forces_synthesis ⟨9, "pass", [], []⟩ ⟨3, ⟨1, 1, 1, 1, 0⟩⟩
      (Except.error "oracle down") (Or.inr rfl)⟩

/-- C3.  On a `needsImprovement` or `poor` validator marker,
`orchestrator_decision` returns `data_collection` while the
`quality_validator` call counter is below 2 and `report_synthesis` once
it has reached 2, for every state and every oracle outcome — so
insufficient quality never causes more than 2 validate-to-collect round
trips. -/
theorem quality_loop_cap (vd : ValidationData) (st : AgentsDecisionState)
    (ob : Except String String)
    (h : validatorLabel vd = "quality_validated_needs_improvement" ∨
      validatorLabel vd = "quality_validated_poor") :
    orchestrator_decision st (validatorLabel vd) ob =
      if st.agent_call_counts.quality_validator < 2 then "data_collection"
      else "report_synthesis" := by
  have h1 : containsSubstr "quality_validated_needs_improvement"
      "quality_validated_good" = false := by decide
  have h2 : containsSubstr "quality_validated_needs_improvement"
      "quality_validated_needs_improvement" = true := by decide
  have h3 : containsSubstr "quality_validated_poor"
      "quality_validated_good" = false := by decide
  have h4 : containsSubstr "quality_validated_poor"
      "quality_validated_needs_improvement" = false := by decide
  have h5 : containsSubstr "quality_validated_poor"
      "quality_validated_poor" = true := by decide
  rcases h with h | h <;> rw [h] <;> cases ob <;>
    simp [orchestrator_decision, h1, h2, h3, h4, h5]

/-- Witness for C3: a poor validation with the counter already at 2
forces `report_synthesis` even though the oracle answers
`data_collection`. -/
theorem quality_loop_cap_witness :
    validatorLabel ⟨5, "fail", [], []⟩ = "quality_validated_poor" ∧
    orchestrator_decision ⟨6, ⟨1, 2, 2, 2, 0⟩⟩ (validatorLabel ⟨5, "fail", [], []⟩)
      (Except.ok "data_collection") = "report_synthesis" := by
  refine ⟨by decide, ?_⟩
  have h := quality_loop_cap ⟨5, "fail", [], []⟩ ⟨6, ⟨1, 2, 2, 2, 0⟩⟩
    (Except.ok "data_collection") (Or.inr (by decide))
  rw [h]
  decide

/-- C2 counterexample.  At iteration 16 — beyond `maxIterations = 15`,
hence also `>= maxIterations - 3` — with a fresh quality-improvement
marker, `orchestrator_decision` returns `data_collection`: neither the
claimed forced `Synthesize` nor the claimed forced `End`, because the
quality-loop rules run before the safety rules. -/
theorem hard_override_counterexample :
    orchestrator_decision ⟨16, ⟨1, 2, 2, 1, 0⟩⟩ "quality_validated_needs_improvement"
        (Except.ok "end") = "data_collection" ∧
    16 > 15 ∧ 15 - 3 ≤ 16 ∧
    ("data_collection" : String) ≠ "report_synthesis" ∧
    ("data_collection" : String) ≠ "end" := by
  refine ⟨by decide, by decide, by decide, by decide, by decide⟩

/-- C2 amended.  The safety override applies only after the quality-loop
rules: when the last result carries none of the three quality markers and
`iteration_count >= 12 = maxIterations - 3`, the decision is
`report_synthesis` for every oracle outcome; this also covers every
iteration above `maxIterations`, whose `end` branch is unreachable
(`elif iteration_count > 15` sits behind `if iteration_count >= 12`), so
the safety rules never force `end`. -/
theorem safety_override_after_quality_rules (st : AgentsDecisionState)
    (last : String) (ob : Except String String)
    (h1 : containsSubstr last "quality_validated_good" = false)
    (h2 : containsSubstr last "quality_validated_needs_improvement" = false)
    (h3 : containsSubstr last "quality_validated_poor" = false)
    (h4 : 12 ≤ st.iteration_count) :
    orchestrator_decision st last ob = "report_synthesis" := by
  have h5 : ¬ st.iteration_count < 5 := by omega
  have h6 : ¬ st.iteration_count < 8 := by omega
  cases ob <;> simp [orchestrator_decision, h1, h2, h3, h4, h5, h6]

/-- Witness for C2's amended claim: iteration 16 with a plain collector
result and a failing oracle. -/
theorem safety_override_after_quality_rules_witness :
    containsSubstr "Data collection completed for 1 entities"
        "quality_validated_poor" = false ∧
    orchestrator_decision ⟨16, ⟨1, 4, 2, 0, 0⟩⟩
      "Data collection completed for 1 entities" (Except.error "down") =
      "report_synthesis" :=
  ⟨by decide,
    safety_override_after_quality_rules ⟨16, ⟨1, 4, 2, 0, 0⟩⟩
      "Data collection completed for 1 entities" (Except.error "down")
      (by decide) (by decide) (by decide) (by decide)⟩

/-- C5 counterexample.  With no override active, `orchestrator_decision`
returns the oracle's first token verbatim: the response `"banana"` is
returned unchanged, a value outside the closed action enumeration (and
not any `Unknown` canonicalization). -/
theorem decide_closed_set_counterexample :
    orchestrator_decision ⟨1, ⟨0, 0, 0, 0, 0⟩⟩
        "Query parsed successfully - 2 entities, 3 focus areas"
        (Except.ok "banana") = "banana" ∧
    "banana" ∉ closedActionLabels := by
  refine ⟨by decide, by decide⟩

/-- C5 amended.  The decision is either one of the three deterministic
override/fallback labels or the lowercased first token of the oracle's
response passed through verbatim — there is no canonicalization of the
token against the closed enumeration and no `Unknown` value; unmatched
tokens reach the caller, whose per-stage `else` transfers absorb them. -/
theorem decide_output_shape (st : AgentsDecisionState) (last : String)
    (ob : Except String String) :
    orchestrator_decision st last ob ∈
        (["data_collection", "report_synthesis", "data_analysis"] : List String) ∨
    ∃ r, ob = Except.ok r ∧
      orchestrator_decision st last ob = firstToken (pyLower (pyStrip r)) := by
  cases ob with
  | ok r =>
      simp only [orchestrator_decision]
      split_ifs <;>
        first
          | exact Or.inr ⟨r, rfl, rfl⟩
          | omega
          | (left; simp)
  | error e =>
      left
      simp only [orchestrator_decision]
      split_ifs <;> simp

/-- C10.  When the validator's own LLM call raises, the stored fallback
result is score 7 with status `pass` and the outcome marker is
`quality_validated_fallback`; that marker matches none of the three
quality markers the decision engine checks, so a failed validation never
triggers the quality-improvement loop: the decision is exactly what it
would be with a markerless result, i.e. the oracle consultation,
safety-rule and iteration-bucket path. -/
theorem validator_fallback_bypasses_quality_loop :
    (∀ e : String, agentsValidatorRun (Except.error e) =
      (fallbackValidationData, "quality_validated_fallback")) ∧
    fallbackValidationData.overall_score = 7 ∧
    fallbackValidationData.validation_status = "pass" ∧
    containsSubstr "quality_validated_fallback" "quality_validated_good" = false ∧
    containsSubstr "quality_validated_fallback"
      "quality_validated_needs_improvement" = false ∧
    containsSubstr "quality_validated_fallback" "quality_validated_poor" = false ∧
    ∀ (st : AgentsDecisionState) (ob : Except String String),
      orchestrator_decision st "quality_validated_fallback" ob = orchestrator_decision st "" ob := by
  refine ⟨fun e => rfl, rfl, rfl, by decide, by decide, by decide, fun st ob => ?_⟩
  have e1 : containsSubstr "quality_validated_fallback" "quality_validated_good" = false := by decide
  have e2 : containsSubstr "quality_validated_fallback"
      "quality_validated_needs_improvement" = false := by decide
  have e3 : containsSubstr "quality_validated_fallback" "quality_validated_poor" = false := by decide
  have e4 : containsSubstr "" "quality_validated_good" = false := by decide
  have e5 : containsSubstr "" "quality_validated_needs_improvement" = false := by decide
  have e6 : containsSubstr "" "quality_validated_poor" = false := by decide
  cases ob <;> simp [orchestrator_decision, e1, e2, e3, e4, e5, e6]

/-! ## Theorems about the retrieval wrapper and the generic routers -/

/-- C9.  `WebSearchTool._run` is total (it is a Lean function of the HTTP
outcome): a non-200 status and a raised exception both come back as
descriptive error strings, and consequently running the collector's
query loop over the tool — every call returning normally — is exactly
the loop with its per-search `except` branch deleted: that branch, and
its `"Search failed for ..."` cell, is unreachable for failures
originating inside the search tool. -/
theorem web_search_total_refinement :
    (∀ code : Nat, webSearchRun (HttpOutcome.badStatus code) =
      "Search failed with status code: " ++ toString code) ∧
    (∀ e : String, webSearchRun (HttpOutcome.raised e) =
      "Error during web search: " ++ e) ∧
    ∀ (o : Nat → HttpOutcome) (qs : List SearchQuery) (i : Nat)
      (rd : List (String × List (String × String))),
      processQueries (fun n => Except.ok (webSearchRun (o n))) qs i rd =
        processQueriesNoExcept (fun n => webSearchRun (o n)) qs i rd := by
  refine ⟨fun code => rfl, fun e => rfl, fun o qs => ?_⟩
  induction qs with
  | nil => intro i rd; rfl
  | cons q qs ih =>
      intro i rd
      simp only [processQueries, processQueriesNoExcept, cellOf]
      exact ih (i + 1) _

/-- C6 counterexample.  In the generic orchestrator, after exactly one
executed stage (the data collector, which appends one message) the
routing function `_route_after_data_collection` appends a second message
while executing no stage: at that run point the log holds 2 entries but
only 1 stage has executed, so the log length does not equal the number
of executed stages. -/
theorem monotonic_log_counterexample :
    (genericDataCollector "t0" (fun _ _ => Except.error "boom")
        ⟨"q", ["A"], [], [], none, "", "", [], 0, 3⟩).agent_messages.length = 1 ∧
    (routeAfterDataCollection (genericDataCollector "t0"
        (fun _ _ => Except.error "boom")
        ⟨"q", ["A"], [], [], none, "", "", [], 0, 3⟩)).1.agent_messages.length = 2 ∧
    (routeAfterDataCollection (genericDataCollector "t0"
        (fun _ _ => Except.error "boom")
        ⟨"q", ["A"], [], [], none, "", "", [], 0, 3⟩)).2 = "data_collection" := by
  refine ⟨by decide, by decide, by decide⟩

/-- C6 amended.  The log is append-only — every operation extends
`agent_messages` at the tail, never removing or reordering entries — and
each executed stage appends exactly one entry; but the routing decisions
`_route_after_data_collection` and `_route_after_validation` also append
exactly one entry each, so the log length equals stages executed plus
routing decisions logged, and can strictly exceed the number of executed
stages. -/
theorem log_append_only :
    (∀ (ts : String) (search : Nat → Nat → Except String String) (st : GState),
      ∃ m, (genericDataCollector ts search st).agent_messages =
        st.agent_messages ++ [m]) ∧
    (∀ st : GState, ∃ m,
      (routeAfterDataCollection st).1.agent_messages =
        st.agent_messages ++ [m]) ∧
    (∀ st : GState, ∃ m,
      (routeAfterValidation st).1.agent_messages =
        st.agent_messages ++ [m]) := by
  refine ⟨fun ts search st => ⟨_, rfl⟩, fun st => ?_, fun st => ?_⟩
  · unfold routeAfterDataCollection
    dsimp only
    split_ifs <;> exact ⟨_, rfl⟩
  · unfold routeAfterValidation
    cases h : st.validation_recommendations with
    | none => exact ⟨_, rfl⟩
    | some recs =>
        dsimp only
        split_ifs <;> exact ⟨_, rfl⟩

/-! ## Invariants of the `main.py` run loop -/

/-- No stage branch writes `iteration_count` or `max_iterations`. -/
theorem stageExec_iteration (b : Behavior) (s : Step) (st : RState) :
    (stageExec b s st).1.iteration_count = st.iteration_count ∧
    (stageExec b s st).1.max_iterations = st.max_iterations := by
  cases s <;>
    dsimp only [stageExec, parseStage, planStage, collectStage, analyzeStage,
      validateStage, synthStage] <;>
    (try split) <;> exact ⟨rfl, rfl⟩

/-- No stage branch other than `query_parsing` writes `parsed_entities`
or `research_focus_areas`. -/
theorem stageExec_entities (b : Behavior) (s : Step) (st : RState)
    (h : s ≠ Step.queryParsing) :
    (stageExec b s st).1.parsed_entities = st.parsed_entities ∧
    (stageExec b s st).1.research_focus_areas = st.research_focus_areas := by
  cases s
  case queryParsing => exact absurd rfl h
  all_goals
    dsimp only [stageExec, planStage, collectStage, analyzeStage,
      validateStage, synthStage]
  all_goals (try split) <;> exact ⟨rfl, rfl⟩

/-- The state component of a cycle is the stage's output on the
iteration-bumped state. -/
theorem cycle_state (b : Behavior) (st : RState) (s : Step) :
    (cycle b st s).1 =
      (stageExec b s { st with iteration_count := st.iteration_count + 1 }).1 :=
  rfl

/-- The next-step component of a cycle comes from the transfer chain
`route`. -/
theorem cycle_route (b : Behavior) (st : RState) (s : Step) :
    (cycle b st s).2 =
      route s (main_orchestrator_decision
        (stageExec b s { st with iteration_count := st.iteration_count + 1 }).1
        (b.decideLLM (st.iteration_count + 1))) :=
  rfl

/-- Each cycle increments `iteration_count` by exactly one. -/
theorem cycle_iteration (b : Behavior) (st : RState) (s : Step) :
    (cycle b st s).1.iteration_count = st.iteration_count + 1 := by
  rw [cycle_state]
  exact (stageExec_iteration b s _).1

/-- Each cycle preserves `max_iterations`. -/
theorem cycle_max (b : Behavior) (st : RState) (s : Step) :
    (cycle b st s).1.max_iterations = st.max_iterations := by
  rw [cycle_state]
  exact (stageExec_iteration b s _).2

/-- A stopped loop observation is a fixed point of `runStep`. -/
theorem runStep_stopped (b : Behavior) (t : RState × Step × Bool)
    (h : t.2.2 = true) : runStep b t = t := by
  rcases t with ⟨st, s, stop⟩
  cases stop
  · simp at h
  · rfl

/-- Below the cap, a non-stopped observation runs one cycle. -/
theorem runStep_run (b : Behavior) (st : RState) (s : Step)
    (h : st.iteration_count < st.max_iterations) :
    runStep b (st, s, false) =
      match cycle b st s with
      | (st', none) => (st', s, true)
      | (st', some s') => (st', s', false) := by
  dsimp only [runStep]
  rw [if_neg (by simp), if_pos h]

/-- At the cap, a non-stopped observation stops without a cycle. -/
theorem runStep_cap (b : Behavior) (st : RState) (s : Step)
    (h : ¬ st.iteration_count < st.max_iterations) :
    runStep b (st, s, false) = (st, s, true) := by
  dsimp only [runStep]
  rw [if_neg (by simp), if_neg h]

/-- `max_iterations` stays 15 for the whole run. -/
theorem runState_max (b : Behavior) (q : String) (n : Nat) :
    (runState b q n).1.max_iterations = 15 := by
  induction n with
  | zero => rfl
  | succ n ih =>
      show (runStep b (runState b q n)).1.max_iterations = 15
      rcases hr : runState b q n with ⟨st, s, stop⟩
      rw [hr] at ih
      cases stop
      case true => rw [runStep_stopped b _ rfl]; exact ih
      case false =>
        by_cases hcond : st.iteration_count < st.max_iterations
        · rw [runStep_run b st s hcond]
          rcases hc : cycle b st s with ⟨st', os⟩
          have hm := cycle_max b st s
          rw [hc] at hm
          cases os <;> (dsimp only; rw [hm]; exact ih)
        · rw [runStep_cap b st s hcond]
          exact ih

/-- As long as the loop has not stopped, `iteration_count` equals the
number of executed cycles. -/
theorem runState_iteration (b : Behavior) (q : String) (n : Nat)
    (h : (runState b q n).2.2 = false) :
    (runState b q n).1.iteration_count = n := by
  induction n with
  | zero => rfl
  | succ n ih =>
      rcases hr : runState b q n with ⟨st, s, stop⟩
      have hstep : runState b q (n + 1) = runStep b (st, s, stop) := by
        show runStep b (runState b q n) = _
        rw [hr]
      rw [hstep] at h ⊢
      cases stop
      case true =>
        rw [runStep_stopped b _ rfl] at h
        exact absurd h (by simp)
      case false =>
        by_cases hcond : st.iteration_count < st.max_iterations
        · rw [runStep_run b st s hcond] at h ⊢
          rcases hc : cycle b st s with ⟨st', os⟩
          rw [hc] at h
          have hit := cycle_iteration b st s
          rw [hc] at hit
          have hst : st.iteration_count = n := by
            have := ih (by rw [hr])
            rw [hr] at this
            exact this
          cases os
          · exact absurd h (by simp)
          · dsimp only
            dsimp only at hit
            omega
        · rw [runStep_cap b st s hcond] at h
          exact absurd h (by simp)

/-- Once stopped, the run stays stopped. -/
theorem runState_stopped_mono (b : Behavior) (q : String) (n m : Nat)
    (h : (runState b q n).2.2 = true) :
    runState b q (n + m) = runState b q n := by
  induction m with
  | zero => rfl
  | succ m ih =>
      show runStep b (runState b q (n + m)) = _
      rw [ih, runStep_stopped b _ h]

/-- The loop invariant `iteration <= maxIterations`. -/
theorem runState_iter_le (b : Behavior) (q : String) (n : Nat) :
    (runState b q n).1.iteration_count ≤ (runState b q n).1.max_iterations := by
  induction n with
  | zero => exact Nat.zero_le 15
  | succ n ih =>
      show (runStep b (runState b q n)).1.iteration_count ≤
        (runStep b (runState b q n)).1.max_iterations
      rcases hr : runState b q n with ⟨st, s, stop⟩
      rw [hr] at ih
      dsimp only at ih
      cases stop
      case true => rw [runStep_stopped b _ rfl]; exact ih
      case false =>
        by_cases hcond : st.iteration_count < st.max_iterations
        · rw [runStep_run b st s hcond]
          rcases hc : cycle b st s with ⟨st', os⟩
          have hit := cycle_iteration b st s
          rw [hc] at hit
          have hm := cycle_max b st s
          rw [hc] at hm
          cases os <;> (dsimp only; dsimp only at hit hm; omega)
        · rw [runStep_cap b st s hcond]
          exact ih

/-- By the 16th check the loop has stopped. -/
theorem runState_stop_16 (b : Behavior) (q : String) :
    (runState b q 16).2.2 = true := by
  by_cases h : (runState b q 15).2.2 = true
  · have habs := runState_stopped_mono b q 15 1 h
    show (runState b q (15 + 1)).2.2 = true
    rw [habs]
    exact h
  · have hfalse : (runState b q 15).2.2 = false := by simpa using h
    have hi := runState_iteration b q 15 hfalse
    have hm := runState_max b q 15
    show (runStep b (runState b q 15)).2.2 = true
    rcases hr : runState b q 15 with ⟨st, s, stop⟩
    rw [hr] at hi hm hfalse
    have hstop : stop = false := hfalse
    subst hstop
    have hcond : ¬ st.iteration_count < st.max_iterations := by
      dsimp only at hi hm
      omega
    rw [runStep_cap b st s hcond]

/-- C1.  For every input query and every behaviour of the oracle and the
retrieval provider, the run loop has stopped by the 16th loop-condition
check — i.e. after at most `maxIterations = 15` executed cycles, within
`maxIterations + k` for `k = 1` — because each cycle increments
`iteration_count` by exactly 1 at its top (`cycle_iteration`) and the
loop condition bounds it by `max_iterations`, which stays 15. -/
theorem run_loop_terminates (b : Behavior) (q : String) (n : Nat) :
    (runState b q (16 + n)).2.2 = true ∧
    (runState b q n).1.iteration_count ≤ (runState b q n).1.max_iterations := by
  refine ⟨?_, runState_iter_le b q n⟩
  induction n with
  | zero => exact runState_stop_16 b q
  | succ n ih =>
      show (runStep b (runState b q (16 + n))).2.2 = true
      rw [runStep_stopped b _ ih]
      exact ih

/-- No transfer chain ever routes back to `query_parsing`. -/
theorem route_ne_queryParsing (s : Step) (d : String) :
    route s d ≠ some Step.queryParsing := by
  cases s <;> dsimp only [route] <;> split_ifs <;> simp

/-- From the second observation onward, a running loop is never at the
`query_parsing` step. -/
theorem runState_step_ne_parse (b : Behavior) (q : String) (m : Nat)
    (h : (runState b q (m + 1)).2.2 = false) :
    (runState b q (m + 1)).2.1 ≠ Step.queryParsing := by
  rcases hr : runState b q m with ⟨st, s, stop⟩
  have hstep : runState b q (m + 1) = runStep b (st, s, stop) := by
    show runStep b (runState b q m) = _
    rw [hr]
  rw [hstep] at h ⊢
  cases stop
  case true =>
    rw [runStep_stopped b _ rfl] at h
    exact absurd h (by simp)
  case false =>
    by_cases hcond : st.iteration_count < st.max_iterations
    · rw [runStep_run b st s hcond] at h ⊢
      rcases hc : cycle b st s with ⟨st', os⟩
      rw [hc] at h
      have hroute := cycle_route b st s
      rw [hc] at hroute
      cases os with
      | none => exact absurd h (by simp)
      | some s2 =>
          dsimp only
          intro hEq
          subst hEq
          exact route_ne_queryParsing s _ hroute.symm
    · rw [runStep_cap b st s hcond] at h
      exact absurd h (by simp)

/-- A cycle at any step other than `query_parsing` leaves
`parsed_entities` and `research_focus_areas` untouched. -/
theorem cycle_entities (b : Behavior) (st : RState) (s : Step)
    (h : s ≠ Step.queryParsing) :
    (cycle b st s).1.parsed_entities = st.parsed_entities ∧
    (cycle b st s).1.research_focus_areas = st.research_focus_areas := by
  rw [cycle_state]
  exact stageExec_entities b s _ h

/-- C8.  `entities` and `focusAreas` start empty, and from the first
cycle (the Parse stage) onward their value never changes: at every later
observation point, for every behaviour, `parsed_entities` and
`research_focus_areas` equal the value the Parse cycle produced — no
later stage or decision writes them, and they never shrink. -/
theorem entities_frame_condition (b : Behavior) (q : String) (n : Nat) :
    (runState b q 0).1.parsed_entities = [] ∧
    (runState b q 0).1.research_focus_areas = [] ∧
    (runState b q (n + 1)).1.parsed_entities =
      (runState b q 1).1.parsed_entities ∧
    (runState b q (n + 1)).1.research_focus_areas =
      (runState b q 1).1.research_focus_areas := by
  refine ⟨rfl, rfl, ?_⟩
  induction n with
  | zero => exact ⟨rfl, rfl⟩
  | succ n ih =>
      rcases hr : runState b q (n + 1) with ⟨st, s, stop⟩
      have hstep : runState b q (n + 2) = runStep b (st, s, stop) := by
        show runStep b (runState b q (n + 1)) = _
        rw [hr]
      rw [hr] at ih
      dsimp only at ih
      rw [hstep]
      cases stop
      case true =>
        rw [runStep_stopped b _ rfl]
        exact ih
      case false =>
        by_cases hcond : st.iteration_count < st.max_iterations
        · rw [runStep_run b st s hcond]
          have hs : s ≠ Step.queryParsing := by
            have hne := runState_step_ne_parse b q n (by rw [hr])
            rw [hr] at hne
            exact hne
          rcases hc : cycle b st s with ⟨st', os⟩
          have hent := cycle_entities b st s hs
          rw [hc] at hent
          cases os <;>
            (dsimp only
             dsimp only at hent
             exact ⟨hent.1.trans ih.1, hent.2.trans ih.2⟩)
        · rw [runStep_cap b st s hcond]
          exact ih

/-- C7.  A raised retrieval call never aborts the collector: its error
text is recorded in the `(entity, focusArea)` cell as the
`"Search failed for {query}: {e}"` string.  Concretely, under the
behaviour in which every external call raises `"boom"`, the finished run
holds an error string in every `research_data` cell, and still executed
the Analyze stage (one `data_analyzer` call and its log message) and the
Synthesize stage (two `report_synthesizer` calls and the fallback
report) before stopping. -/
theorem retrieval_failure_degraded_run :
    (∀ e query : String, cellOf (Except.error e) query =
      "Search failed for " ++ query ++ ": " ++ e) ∧
    (runState allFail "Compare A and B on price and support" 16).1.research_data =
      [("Unknown",
        [("pricing", "Search failed for Unknown pricing small business: boom"),
         ("features", "Search failed for Unknown features small business: boom"),
         ("integrations", "Search failed for Unknown integrations small business: boom"),
         ("limitations", "Search failed for Unknown limitations small business: boom")])] ∧
    "Data Analyzer: Analyzed data for 1 entities" ∈
      (runState allFail "Compare A and B on price and support" 16).1.agent_messages ∧
    (runState allFail "Compare A and B on price and support" 16).1.agent_call_counts.data_analyzer = 1 ∧
    (runState allFail "Compare A and B on price and support" 16).1.agent_call_counts.report_synthesizer = 2 ∧
    (runState allFail "Compare A and B on price and support" 16).1.final_report =
      "Report generation failed: boom" ∧
    (runState allFail "Compare A and B on price and support" 16).2.2 = true := by
  exact ⟨fun e query => rfl, by decide, by decide, by decide, by decide,
    by decide, by decide⟩
